import Mathlib

/-!
Verification development for the XCQA cross-chain request relay.

The development shallowly embeds the two programs of the repository:
`listener.py` (the relay loop that observes `RequestLogged` events on C1,
assembles a state proof from Ethereum mainnet data and submits it back via
`verify`) and `bot.py` (the Telegram bot that submits requests, waits for the
matching `RequestServed` event, and answers status queries).

Byte strings are modelled as lists of naturals; addresses, keys, block
numbers, request ids and transaction hashes as naturals.  External RPC calls
are modelled by an environment of fallible functions (`Except`), and each
observable step of a handler is recorded in a trace, so that ordering and
error-propagation properties can be stated.
-/

/-- Byte strings (e.g. trie nodes, storage values) as lists of byte values. -/
abbrev Bytes := List Nat

/-- The part of an Ethereum block header used by the listener:
`block.stateRoot` (listener.py line 55). -/
structure BlockHeader where
  stateRoot : Bytes
deriving DecidableEq

/-- One per-key entry of an EIP-1186 proof response:
`proof.storageProof[i]` with fields `key`, `value`, `proof`
(listener.py lines 59-61). -/
structure StorageEntry where
  key : Bytes
  value : Bytes
  proof : List Bytes
deriving DecidableEq

/-- The part of an `eth_getProof` response used by the listener:
`accountProof`, `storageHash` and the list of storage entries
(listener.py lines 57-61). -/
structure ProofResponse where
  accountProof : List Bytes
  storageHash : Bytes
  storageProof : List StorageEntry
deriving DecidableEq

/-- The state-proof payload submitted to `verify`, in the order the listener
builds it (listener.py lines 54-62). -/
structure StateProof where
  stateRoot : Bytes
  account : Nat
  accountProof : List Bytes
  storageHash : Bytes
  storageKey : Bytes
  storageValue : Bytes
  storageProof : List Bytes
deriving DecidableEq

/-- A `RequestLogged` event, with the fields read by `handle_event`
(listener.py lines 45-48). -/
structure LoggedEvent where
  requestId : Nat
  account : Nat
  key : Nat
  blockId : Nat
deriving DecidableEq

/-- `web3._utils.encoding.pad_bytes(fill, num, v) = v.rjust(num, fill)`:
left-pad `v` with `fill` up to length `num`; a longer `v` is returned
unchanged (Nat subtraction makes the pad empty). -/
def pad_bytes (fill : Nat) (numBytes : Nat) (unpadded : Bytes) : Bytes :=
  List.replicate (numBytes - unpadded.length) fill ++ unpadded

/-- Big-endian numeric value of a byte string, used to compare a storage
entry's byte key with the originally requested integer key. -/
def bytesToNat (bs : Bytes) : Nat :=
  List.foldl (fun a b => 256 * a + b) 0 bs

/-- The state-proof construction of listener.py lines 54-62.  It reads
`proof.storageProof[0]`, the FIRST storage entry of the response; on an empty
`storageProof` list the subscript raises `IndexError`, modelled as `none`. -/
def assembleStateProof (block : BlockHeader) (account : Nat)
    (proof : ProofResponse) : Option StateProof :=
  match proof.storageProof with
  | [] => none
  | entry :: _ =>
    some { stateRoot := block.stateRoot
           account := account
           accountProof := proof.accountProof
           storageHash := proof.storageHash
           storageKey := pad_bytes 0 32 entry.key
           storageValue := entry.value
           storageProof := entry.proof }

/-- Errors a relay processing step can raise: an RPC/transaction error from
the environment (carrying an abstract code), or the `IndexError` from
`proof.storageProof[0]` on an empty list. -/
inductive RelayErr
  | rpc (code : Nat)
  | indexOutOfRange
deriving DecidableEq

/-- Observable steps performed by `handle_event`, in program order:
`get_block`, `get_proof`, `verify(...).transact()`,
`wait_for_transaction_receipt`, and the success log line `print(...)`. -/
inductive RelayAction
  | getBlock (blockId : Nat)
  | getProof (account : Nat) (key : Nat) (blockId : Nat)
  | submitVerify (requestId : Nat) (proof : StateProof)
  | waitReceipt (txnHash : Nat)
  | printServed (requestId : Nat)
deriving DecidableEq

/-- The external world seen by the listener: mainnet block/proof reads and
C1 transaction submission, each of which may fail. -/
structure RelayEnv where
  getBlock : Nat → Except RelayErr BlockHeader
  getProof : Nat → Nat → Nat → Except RelayErr ProofResponse
  transactVerify : Nat → StateProof → Except RelayErr Nat
  waitForReceipt : Nat → Except RelayErr Unit

/-- `handle_event` (listener.py lines 44-68): fetch block, fetch proof,
build the state proof, submit `verify`, await the receipt, print the served
line.  Returns the trace of performed actions together with the uncaught
exception, if any: the Python function has no try/except, so the first
failing step aborts the rest. -/
def handleEvent (env : RelayEnv) (e : LoggedEvent) : List RelayAction × Option RelayErr :=
  match env.getBlock e.blockId with
  | .error er => ([RelayAction.getBlock e.blockId], some er)
  | .ok block =>
    match env.getProof e.account e.key e.blockId with
    | .error er =>
      ([RelayAction.getBlock e.blockId, RelayAction.getProof e.account e.key e.blockId],
       some er)
    | .ok proof =>
      match assembleStateProof block e.account proof with
      | none =>
        ([RelayAction.getBlock e.blockId, RelayAction.getProof e.account e.key e.blockId],
         some RelayErr.indexOutOfRange)
      | some sp =>
        match env.transactVerify e.requestId sp with
        | .error er =>
          ([RelayAction.getBlock e.blockId,
            RelayAction.getProof e.account e.key e.blockId,
            RelayAction.submitVerify e.requestId sp], some er)
        | .ok txnHash =>
          match env.waitForReceipt txnHash with
          | .error er =>
            ([RelayAction.getBlock e.blockId,
              RelayAction.getProof e.account e.key e.blockId,
              RelayAction.submitVerify e.requestId sp,
              RelayAction.waitReceipt txnHash], some er)
          | .ok _ =>
            ([RelayAction.getBlock e.blockId,
              RelayAction.getProof e.account e.key e.blockId,
              RelayAction.submitVerify e.requestId sp,
              RelayAction.waitReceipt txnHash,
              RelayAction.printServed e.requestId], none)

/-- One iteration of the `for e in event_filter.get_new_entries()` loop of
`log_loop` (listener.py lines 72-73): events are handled strictly in order,
and an exception from `handle_event` propagates, abandoning the remainder of
the batch. -/
def processBatch (env : RelayEnv) : List LoggedEvent → List RelayAction × Option RelayErr
  | [] => ([], none)
  | e :: rest =>
    let r := handleEvent env e
    match r.2 with
    | some er => (r.1, some er)
    | none => (r.1 ++ (processBatch env rest).1, (processBatch env rest).2)

/-- `log_loop` (listener.py lines 70-74) over a finite schedule of poll
batches: each poll's entries are processed in order and an uncaught exception
terminates the loop, abandoning all later polls. -/
def logLoop (env : RelayEnv) : List (List LoggedEvent) → List RelayAction × Option RelayErr
  | [] => ([], none)
  | batch :: rest =>
    let r := processBatch env batch
    match r.2 with
    | some er => (r.1, some er)
    | none => (r.1 ++ (logLoop env rest).1, (logLoop env rest).2)

/-- Number of `verify` submissions for a given request id in a trace. -/
def submitCount (as : List RelayAction) (rid : Nat) : Nat :=
  (as.filter fun a =>
    match a with
    | RelayAction.submitVerify r _ => r == rid
    | _ => false).length

/-- A `RequestServed` event, with the fields read by the bot
(bot.py lines 112-113). -/
structure ServedEvent where
  requestId : Nat
  reply : Bytes
deriving DecidableEq

/-- `get_new_entries` of a filter created with an `argument_filters`
constraint binding `requestId` to `rid` (bot.py line 110): of the events
emitted in the poll window, only those whose indexed `requestId` equals `rid`
are delivered. -/
def getNewEntries (rid : Nat) (emitted : List ServedEvent) : List ServedEvent :=
  emitted.filter fun ev => ev.requestId == rid

/-- The bot's `listen` helper (bot.py lines 52-63), named `listenServed` here
to avoid clashing with a library name, over a finite schedule of polls: keep
polling until `get_new_entries` returns a non-empty list, then return its
first element (`entries[0]`); an exhausted schedule of empty polls means the
wait has not returned (`none`) - the code has no timeout. -/
def listenServed : List (List ServedEvent) → Option ServedEvent
  | [] => none
  | entries :: rest =>
    match entries with
    | [] => listenServed rest
    | e :: _ => some e

/-- Modelled from the spec: the Bridge contract's request counter, the only
contract state the embedded claims need.  The contract source is not part of
this repository; per the spec, `requestId` is an unsigned integer
monotonically assigned by C1 and `getRequest` knows exactly the ids below the
current total, so `request(...)` assigns the current total as the new id and
increments the counter. -/
structure BridgeState where
  total : Nat
deriving DecidableEq

/-- Modelled from the spec: the Bridge contract's `request` entry point -
returns the assigned `requestId` and the new contract state. -/
def contractRequest (s : BridgeState) : Nat × BridgeState :=
  (s.total, { total := s.total + 1 })

/-- Modelled from the spec: the Bridge contract's `getTotal` view call. -/
def getTotal (s : BridgeState) : Nat :=
  s.total

/-- Observable steps of the bot's `request` handler, in program order
(bot.py lines 100-115). -/
inductive BotAction
  | submitRequestTx (account : Nat) (key : Nat) (blockId : Nat)
  | waitReceipt
  | readTotal (result : Nat)
  | replyCreated (rid : Nat) (account : Nat) (key : Nat) (blockId : Nat)
  | createServedFilter (rid : Nat)
  | awaitServed (rid : Nat)
  | replyServed (rid : Nat) (reply : Bytes)
deriving DecidableEq

/-- The bot's `request` handler (bot.py lines 100-115): submit the request
transaction, wait for its receipt, derive `requestId = getTotal() - 1`,
announce the created request, create a `RequestServed` filter keyed on the
derived id, block in `listenServed`, and report the served reply.  The contract
state is threaded sequentially (no interleaved submissions, the behaviour the
claim preconditions).  `stream` is the schedule of events emitted per poll
window; a `none` result models `listenServed` never returning. -/
def requestHandler (s : BridgeState) (account key blockId : Nat)
    (stream : List (List ServedEvent)) :
    List BotAction × BridgeState × Option (Nat × Bytes) :=
  let r := contractRequest s
  let derived := getTotal r.2 - 1
  let base := [BotAction.submitRequestTx account key blockId,
               BotAction.waitReceipt,
               BotAction.readTotal (getTotal r.2),
               BotAction.replyCreated derived account key blockId,
               BotAction.createServedFilter derived,
               BotAction.awaitServed derived]
  match listenServed (stream.map (getNewEntries derived)) with
  | none => (base, r.2, none)
  | some ev =>
    (base ++ [BotAction.replyServed ev.requestId ev.reply], r.2,
     some (ev.requestId, ev.reply))

/-- The tuple returned by `getRequest(requestId).call()`, restricted to the
positions the bot reads: `msg[0]` address, `msg[1]` key, `msg[2]` block,
`msg[3]` timestamp, `msg[6]` served flag, `msg[7]` reply (bot.py
lines 123-126). -/
structure RequestRecord where
  account : Nat
  key : Nat
  blockId : Nat
  submittedAt : Nat
  served : Bool
  reply : Bytes
deriving DecidableEq

/-- The possible outcomes of `contract.functions.getRequest(rid).call()`:
a successful record, a contract revert for an unknown id, or a
transport/RPC failure reaching the chain. -/
inductive CallOutcome
  | ok (record : RequestRecord)
  | revertNotFound
  | transportFailure
deriving DecidableEq

/-- A message the bot sends back to the chat (bot.py lines 125-126 and 129),
with the interpolated values as fields. -/
inductive BotMessage
  | details (rid : Nat) (account : Nat) (key : Nat) (blockId : Nat)
      (date : Nat) (served : Bool) (reply : Bytes)
  | notFound (rid : Nat)
deriving DecidableEq

/-- The body of the `try:` block of `check` (bot.py lines 121-126) as a
fallible computation: the `getRequest` call may fail, and decoding may fail
(`datetime.fromtimestamp(msg[3])` is modelled by the abstract fallible
conversion `fromtimestamp`).  Any raised exception is an `error`. -/
def checkTryBody (fromtimestamp : Nat → Option Nat) (rid : Nat)
    (outcome : CallOutcome) : Except Unit BotMessage :=
  match outcome with
  | CallOutcome.ok r =>
    match fromtimestamp r.submittedAt with
    | some date =>
      Except.ok (BotMessage.details rid r.account r.key r.blockId date
        r.served r.reply)
    | none => Except.error ()
  | CallOutcome.revertNotFound => Except.error ()
  | CallOutcome.transportFailure => Except.error ()

/-- The `check` handler (bot.py lines 118-129): run the `try:` body; the bare
`except:` catches every failure and sends the single not-found message.
The result is the list of messages sent, in order. -/
def checkRun (fromtimestamp : Nat → Option Nat) (rid : Nat)
    (outcome : CallOutcome) : List BotMessage :=
  match checkTryBody fromtimestamp rid outcome with
  | Except.ok m => [m]
  | Except.error _ => [BotMessage.notFound rid]

/-! Concrete fixtures used to instantiate the theorems below. -/

/-- A concrete block header. -/
def cBlock : BlockHeader := ⟨List.replicate 32 7⟩

/-- A storage entry for slot 5 (value 70). -/
def cEntryA : StorageEntry := ⟨[5], [70], [[5]]⟩

/-- A storage entry for slot 3 (value 42). -/
def cEntryB : StorageEntry := ⟨[3], [42], [[3]]⟩

/-- A proof response whose FIRST storage entry is for slot 5 while the entry
matching a request for slot 3 sits at index 1. -/
def cProofMismatch : ProofResponse :=
  ⟨[[1]], List.replicate 32 9, [cEntryA, cEntryB]⟩

/-- A single-entry proof response, as produced by the single-key
`get_proof(account, [key], blockId)` call the listener issues. -/
def cProofSingle : ProofResponse := ⟨[[1]], List.replicate 32 9, [cEntryB]⟩

/-- The state proof the listener assembles from `cProofMismatch`. -/
def cAssembled : StateProof :=
  ⟨List.replicate 32 7, 7, [[1]], List.replicate 32 9,
   pad_bytes 0 32 [5], [70], [[5]]⟩

/-- A one-byte storage key, the spec's example `key = 1`. -/
def wEntry : StorageEntry := ⟨[1], [42], [[3]]⟩

/-- A single-entry proof response around `wEntry`. -/
def wProof : ProofResponse := ⟨[[1]], List.replicate 32 9, [wEntry]⟩

/-- The state proof the listener assembles from `wProof`. -/
def wStateProof : StateProof :=
  ⟨List.replicate 32 7, 7, [[1]], List.replicate 32 9,
   pad_bytes 0 32 [1], [42], [[3]]⟩

/-- An environment in which every RPC step succeeds; `get_proof` answers with
one storage entry for the requested key, as mainnet does for a single-key
query. -/
def envOk : RelayEnv :=
  ⟨fun _ => Except.ok cBlock,
   fun _ k _ => Except.ok ⟨[[1]], List.replicate 32 9, [⟨[k], [42], [[3]]⟩]⟩,
   fun _ _ => Except.ok 100,
   fun _ => Except.ok ()⟩

/-- An environment in which fetching block 100 fails with an RPC error and
everything else succeeds. -/
def envBad : RelayEnv :=
  ⟨fun b => if b == 100 then Except.error (RelayErr.rpc 0) else Except.ok cBlock,
   fun _ k _ => Except.ok ⟨[[1]], List.replicate 32 9, [⟨[k], [42], [[3]]⟩]⟩,
   fun _ _ => Except.ok 100,
   fun _ => Except.ok ()⟩

/-- A well-formed `RequestLogged` event with request id 42. -/
def e42 : LoggedEvent := ⟨42, 5, 3, 200⟩

/-- An event whose block fetch fails in `envBad` (block 100). -/
def eFail : LoggedEvent := ⟨43, 5, 3, 100⟩

/-- An event that processes fine in `envBad` (block 200). -/
def eGood : LoggedEvent := ⟨44, 6, 4, 200⟩

/-- A total timestamp conversion (every timestamp decodes). -/
def anyTimestamp : Nat → Option Nat := fun t => some t

/-- Two requests served in reverse submission order: id 42 first, id 41 in
the following poll window. -/
def servedStream : List (List ServedEvent) := [[⟨42, [9]⟩], [⟨41, [7]⟩]]

/-! Formal statements of claims that the code refutes, stated the way the
claim is written so that a concrete counterexample can negate them. -/

/-- Claim C1 as stated: when processing of one event fails, the relay loop
logs it, drops only that event, and continues with the next event of the
batch and the following polls - in particular no exception escapes the
loop. -/
def relayDropsFailedEvent (env : RelayEnv) (e : LoggedEvent)
    (rest : List LoggedEvent) (polls : List (List LoggedEvent)) : Prop :=
  (handleEvent env e).2.isSome →
  (logLoop env ((e :: rest) :: polls)).2 = none ∧
  (logLoop env ((e :: rest) :: polls)).1 =
    (handleEvent env e).1 ++ (logLoop env (rest :: polls)).1

/-- Claim C3 as stated: whenever the proof response contains at least one
storage entry whose key is the requested one, the assembled state proof takes
`storageKey`, `storageValue` and `storageProof` from a matching entry (and
the remaining fields from the header and the response). -/
def assemblerUsesMatchingEntry (block : BlockHeader) (account : Nat)
    (proof : ProofResponse) (key : Nat) : Prop :=
  (∃ en ∈ proof.storageProof, bytesToNat en.key = key) →
  ∃ sp en, assembleStateProof block account proof = some sp ∧
    en ∈ proof.storageProof ∧ bytesToNat en.key = key ∧
    sp.stateRoot = block.stateRoot ∧ sp.account = account ∧
    sp.accountProof = proof.accountProof ∧ sp.storageHash = proof.storageHash ∧
    sp.storageKey = pad_bytes 0 32 en.key ∧ sp.storageValue = en.value ∧
    sp.storageProof = en.proof

/-! Helper lemmas about the relay loop. -/

/-- A successfully handled event performs exactly the five steps of
`handle_event`, in program order, ending with the receipt wait and the
success log line. -/
theorem handleEvent_ok (env : RelayEnv) (e : LoggedEvent)
    (h : (handleEvent env e).2 = none) :
    ∃ sp txh,
      (handleEvent env e).1 =
        [RelayAction.getBlock e.blockId,
         RelayAction.getProof e.account e.key e.blockId,
         RelayAction.submitVerify e.requestId sp,
         RelayAction.waitReceipt txh,
         RelayAction.printServed e.requestId] := by
  cases hb : env.getBlock e.blockId with
  | error er => simp [handleEvent, hb] at h
  | ok block =>
    cases hp : env.getProof e.account e.key e.blockId with
    | error er => simp [handleEvent, hb, hp] at h
    | ok proof =>
      cases ha : assembleStateProof block e.account proof with
      | none => simp [handleEvent, hb, hp, ha] at h
      | some sp =>
        cases ht : env.transactVerify e.requestId sp with
        | error er => simp [handleEvent, hb, hp, ha, ht] at h
        | ok txh =>
          cases hw : env.waitForReceipt txh with
          | error er => simp [handleEvent, hb, hp, ha, ht, hw] at h
          | ok u => exact ⟨sp, txh, by simp [handleEvent, hb, hp, ha, ht, hw]⟩

/-- When the head event of a batch is handled without an exception, the loop
body continues with the rest of the batch. -/
theorem processBatch_cons_ok (env : RelayEnv) (e : LoggedEvent)
    (rest : List LoggedEvent) (h : (handleEvent env e).2 = none) :
    processBatch env (e :: rest) =
      ((handleEvent env e).1 ++ (processBatch env rest).1,
       (processBatch env rest).2) := by
  simp [processBatch, h]

/-- `submitCount` adds up over concatenated traces. -/
theorem submitCount_append (as bs : List RelayAction) (rid : Nat) :
    submitCount (as ++ bs) rid = submitCount as rid + submitCount bs rid := by
  simp [submitCount, List.filter_append]

/-- A successfully handled event submits exactly one `verify` transaction for
its own request id. -/
theorem submitCount_handleEvent_ok (env : RelayEnv) (e : LoggedEvent)
    (h : (handleEvent env e).2 = none) :
    submitCount (handleEvent env e).1 e.requestId = 1 := by
  obtain ⟨sp, txh, htr⟩ := handleEvent_ok env e h
  rw [htr]
  simp [submitCount]

/-- Under per-event success, a batch's trace is the concatenation of the
per-event traces, in batch order. -/
theorem processBatch_all_ok (env : RelayEnv) :
    ∀ es : List LoggedEvent, (∀ e ∈ es, (handleEvent env e).2 = none) →
      (processBatch env es).1 = es.flatMap fun e => (handleEvent env e).1
  | [], _ => rfl
  | e :: rest, h => by
    have he := h e (List.mem_cons_self e rest)
    have ih := processBatch_all_ok env rest
      (fun x hx => h x (List.mem_cons_of_mem e hx))
    simp [processBatch_cons_ok env e rest he, ih]

/-! Claim C1. -/

/-- C1 fails on the code: in `envBad`, block 100 cannot be fetched, and the
resulting exception is not caught anywhere in `handle_event` or `log_loop`,
so the loop terminates with the error instead of dropping the one event and
continuing with `eGood` and the next poll. -/
theorem c1_counterexample :
    ¬ relayDropsFailedEvent envBad eFail [eGood] [[eGood]] := by
  intro h
  have h2 := h (by decide)
  exact absurd h2.1 (by decide)

/-- C1 amended: an exception raised while processing one event propagates out
of `handle_event`, terminating batch processing and the polling loop with
that error; the remaining events of the batch and all later polls are never
processed. -/
theorem c1_theorem (env : RelayEnv) (e : LoggedEvent) (rest : List LoggedEvent)
    (polls : List (List LoggedEvent)) (er : RelayErr)
    (h : (handleEvent env e).2 = some er) :
    processBatch env (e :: rest) = ((handleEvent env e).1, some er) ∧
    logLoop env ((e :: rest) :: polls) = ((handleEvent env e).1, some er) := by
  have hp : processBatch env (e :: rest) = ((handleEvent env e).1, some er) := by
    simp [processBatch, h]
  exact ⟨hp, by simp [logLoop, hp]⟩

/-- Witness for `c1_theorem` at the concrete failing run. -/
theorem c1_witness :
    processBatch envBad (eFail :: [eGood]) =
      ((handleEvent envBad eFail).1, some (RelayErr.rpc 0)) ∧
    logLoop envBad ((eFail :: [eGood]) :: [[eGood]]) =
      ((handleEvent envBad eFail).1, some (RelayErr.rpc 0)) :=
  c1_theorem envBad eFail [eGood] [[eGood]] (RelayErr.rpc 0) (by decide)

/-! Claim C2. -/

/-- C2 fails on the code: the relay keeps no record of processed request ids,
so a batch containing the same `RequestLogged` event twice yields two
`verify` submissions for request id 42, while processing it once yields one -
more than one transaction per request id, and not the same submissions as
processing the event once. -/
theorem c2_counterexample :
    submitCount (processBatch envOk [e42, e42]).1 42 = 2 ∧
    submitCount (processBatch envOk [e42]).1 42 = 1 ∧
    ¬ submitCount (processBatch envOk [e42, e42]).1 42 ≤ 1 := by decide

/-- C2 amended: the relay is not idempotent per request id - every
successfully handled occurrence of an event contributes exactly one `verify`
submission for its request id, so a duplicated event yields two. -/
theorem c2_theorem (env : RelayEnv) (e : LoggedEvent)
    (h : (handleEvent env e).2 = none) :
    submitCount (handleEvent env e).1 e.requestId = 1 ∧
    submitCount (processBatch env [e, e]).1 e.requestId = 2 := by
  have h1 := submitCount_handleEvent_ok env e h
  refine ⟨h1, ?_⟩
  rw [processBatch_cons_ok env e [e] h, processBatch_cons_ok env e [] h]
  simp only [processBatch]
  rw [submitCount_append, submitCount_append]
  have h0 : submitCount [] e.requestId = 0 := rfl
  omega

/-- Witness for `c2_theorem` at the concrete duplicated event. -/
theorem c2_witness :
    submitCount (handleEvent envOk e42).1 e42.requestId = 1 ∧
    submitCount (processBatch envOk [e42, e42]).1 e42.requestId = 2 :=
  c2_theorem envOk e42 (by decide)

/-! Claim C3. -/

/-- C3 fails on the code: listener.py reads `proof.storageProof[0]`
unconditionally.  For `cProofMismatch` and requested key 3, the matching
entry (key 3, value 42) sits at index 1, but the assembled proof carries the
index-0 entry for key 5 (value 70), so no matching entry supplies the
`storageKey`/`storageValue`/`storageProof` fields. -/
theorem c3_counterexample :
    ¬ assemblerUsesMatchingEntry cBlock 7 cProofMismatch 3 := by
  intro h
  obtain ⟨sp, en, hsp, hmem, hkey, hroot, hacct, haccp, hhash, hskey, hval,
    hsprf⟩ := h ⟨cEntryB, by decide, by decide⟩
  have hred : assembleStateProof cBlock 7 cProofMismatch = some cAssembled := by
    decide
  rw [hred] at hsp
  obtain rfl := Option.some.inj hsp
  have hm : en = cEntryA ∨ en = cEntryB := by
    simpa [cProofMismatch] using hmem
  cases hm with
  | inl hA =>
    subst hA
    exact absurd hkey (by decide)
  | inr hB =>
    subst hB
    exact absurd hval (by decide)

/-- C3 amended: the assembler takes `storageKey`, `storageValue` and
`storageProof` from the FIRST storage entry of the response (index 0); under
the strengthened precondition that this first entry is the one matching the
requested key - which is how the relay calls it, with a single-key
`get_proof(account, [key], blockId)` query - the constructed `StateProof` is
exactly as the claim describes, with `stateRoot` from the header and
`account`, `accountProof`, `storageHash` from the response. -/
theorem c3_theorem (block : BlockHeader) (account : Nat)
    (proof : ProofResponse) (key : Nat) (en : StorageEntry)
    (rest : List StorageEntry)
    (hsp : proof.storageProof = en :: rest)
    (hkey : bytesToNat en.key = key) :
    assembleStateProof block account proof =
      some { stateRoot := block.stateRoot, account := account,
             accountProof := proof.accountProof,
             storageHash := proof.storageHash,
             storageKey := pad_bytes 0 32 en.key,
             storageValue := en.value,
             storageProof := en.proof } ∧
    en ∈ proof.storageProof ∧ bytesToNat en.key = key := by
  refine ⟨?_, hsp ▸ List.mem_cons_self en rest, hkey⟩
  unfold assembleStateProof
  rw [hsp]

/-- Witness for `c3_theorem` on the single-entry response for key 3. -/
theorem c3_witness :
    assembleStateProof cBlock 7 cProofSingle =
      some { stateRoot := cBlock.stateRoot, account := 7,
             accountProof := cProofSingle.accountProof,
             storageHash := cProofSingle.storageHash,
             storageKey := pad_bytes 0 32 cEntryB.key,
             storageValue := cEntryB.value,
             storageProof := cEntryB.proof } ∧
    cEntryB ∈ cProofSingle.storageProof ∧ bytesToNat cEntryB.key = 3 :=
  c3_theorem cBlock 7 cProofSingle 3 cEntryB [] rfl (by decide)

/-! Claim C4. -/

/-- C4: every state proof the assembler constructs left-pads the first
entry's storage key with zero bytes to exactly 32 bytes; a storage slot key
of C2 is a 256-bit word, so its byte encoding is at most 32 bytes long,
which is the stated hypothesis. -/
theorem c4_theorem (block : BlockHeader) (account : Nat)
    (proof : ProofResponse) (sp : StateProof) (en : StorageEntry)
    (rest : List StorageEntry)
    (hsp : proof.storageProof = en :: rest)
    (ha : assembleStateProof block account proof = some sp)
    (hlen : en.key.length ≤ 32) :
    sp.storageKey.length = 32 ∧
    sp.storageKey = List.replicate (32 - en.key.length) 0 ++ en.key := by
  unfold assembleStateProof at ha
  rw [hsp] at ha
  obtain rfl := Option.some.inj ha
  constructor
  · show (pad_bytes 0 32 en.key).length = 32
    simp only [pad_bytes, List.length_append, List.length_replicate]
    omega
  · rfl

/-- Witness for `c4_theorem`: the spec's example `key = 1` pads to 31 zero
bytes followed by the byte 1. -/
theorem c4_witness :
    wStateProof.storageKey.length = 32 ∧
    wStateProof.storageKey = List.replicate 31 0 ++ [1] :=
  c4_theorem cBlock 7 wProof wStateProof wEntry [] rfl rfl (by decide)

/-! Claim C6. -/

/-- C6: within one poll's batch the relay processes events strictly
sequentially in the order returned - the batch trace is the concatenation of
the per-event traces, and each successfully processed event's trace ends with
its receipt wait (then the log line) before the next event's first action
(its block fetch) begins. -/
theorem c6_theorem (env : RelayEnv) (es : List LoggedEvent)
    (h : ∀ e ∈ es, (handleEvent env e).2 = none) :
    (processBatch env es).1 = (es.flatMap fun e => (handleEvent env e).1) ∧
    ∀ e ∈ es, ∃ sp txh,
      (handleEvent env e).1 =
        [RelayAction.getBlock e.blockId,
         RelayAction.getProof e.account e.key e.blockId,
         RelayAction.submitVerify e.requestId sp,
         RelayAction.waitReceipt txh,
         RelayAction.printServed e.requestId] :=
  ⟨processBatch_all_ok env es h, fun e he => handleEvent_ok env e (h e he)⟩

/-- Witness for `c6_theorem` at a concrete two-event batch. -/
theorem c6_witness :
    (processBatch envOk [e42, eGood]).1 =
      ([e42, eGood].flatMap fun e => (handleEvent envOk e).1) :=
  (c6_theorem envOk [e42, eGood] (by decide)).1

/-! Helper lemmas about `listenServed`. -/

/-- Anything `listenServed` returns is a member of one of the polled batches. -/
theorem listen_mem : ∀ (polls : List (List ServedEvent)) (ev : ServedEvent),
    listenServed polls = some ev → ∃ b, b ∈ polls ∧ ev ∈ b
  | [], ev, h => by simp [listenServed] at h
  | [] :: rest, ev, h => by
    obtain ⟨b, hb, hev⟩ := listen_mem rest ev h
    exact ⟨b, List.mem_cons_of_mem _ hb, hev⟩
  | (e :: es) :: _, ev, h => by
    have he : e = ev := by simpa [listenServed] using h
    exact ⟨e :: es, List.mem_cons_self _ _, he ▸ List.mem_cons_self e es⟩

/-- Over a schedule in which every poll comes back empty, `listenServed` never
returns. -/
theorem listen_all_empty : ∀ polls : List (List ServedEvent),
    (∀ b ∈ polls, b = []) → listenServed polls = none
  | [], _ => rfl
  | b :: rest, h => by
    have hb := h b (List.mem_cons_self b rest)
    subst hb
    exact listen_all_empty rest fun x hx => h x (List.mem_cons_of_mem _ hx)

/-- `listenServed` returns the first element of the first non-empty poll. -/
theorem listen_first_nonempty :
    ∀ (pre rest : List (List ServedEvent)) (e : ServedEvent)
      (es : List ServedEvent),
      (∀ b ∈ pre, b = []) → listenServed (pre ++ (e :: es) :: rest) = some e
  | [], _, _, _, _ => rfl
  | b :: pre, rest, e, es, h => by
    have hb := h b (List.mem_cons_self b pre)
    subst hb
    exact listen_first_nonempty pre rest e es
      fun x hx => h x (List.mem_cons_of_mem _ hx)

/-! Claim C5. -/

/-- C5 fails on the code: the bare `except:` of `check` maps a transport
failure of the `getRequest` call to exactly the same not-found message as an
unknown-id revert; the two outcomes are indistinguishable to the user. -/
theorem c5_counterexample :
    checkRun anyTimestamp 5 CallOutcome.transportFailure =
      [BotMessage.notFound 5] ∧
    checkRun anyTimestamp 5 CallOutcome.transportFailure =
      checkRun anyTimestamp 5 CallOutcome.revertNotFound := by decide

/-- C5 amended: `getRequest` on an unknown request id surfaces the not-found
message, but a transport failure of the same query produces the identical
message - the handler's bare catch-all does not distinguish NotFound from
transport errors. -/
theorem c5_theorem (fromtimestamp : Nat → Option Nat) (rid : Nat) :
    checkRun fromtimestamp rid CallOutcome.revertNotFound =
      [BotMessage.notFound rid] ∧
    checkRun fromtimestamp rid CallOutcome.transportFailure =
      [BotMessage.notFound rid] :=
  ⟨rfl, rfl⟩

/-! Claim C7. -/

/-- C7: the reply a waiter receives comes only from the event stream already
filtered on its registered request id, so whatever `listenServed` returns carries
exactly that id - a `RequestServed` event for a different id can never
unblock the waiter. -/
theorem c7_theorem (rid : Nat) (stream : List (List ServedEvent))
    (ev : ServedEvent)
    (h : listenServed (stream.map (getNewEntries rid)) = some ev) :
    ev.requestId = rid := by
  obtain ⟨b, hb, hev⟩ := listen_mem _ ev h
  obtain ⟨orig, _, rfl⟩ := List.mem_map.mp hb
  simp [getNewEntries, List.mem_filter] at hev
  exact hev.2

/-- Witness for `c7_theorem`: ids 42 and 41 served in reverse submission
order; the waiter for id 41 receives the id-41 reply. -/
theorem c7_witness :
    listenServed (servedStream.map (getNewEntries 41)) = some ⟨41, [7]⟩ ∧
    (ServedEvent.mk 41 [7]).requestId = 41 :=
  ⟨by decide, c7_theorem 41 servedStream ⟨41, [7]⟩ (by decide)⟩

/-! Claim C9. -/

/-- C9: the client-side wait returns exactly when a poll comes back
non-empty, in which case it returns the first entry of the first non-empty
poll; over any schedule of polls that all come back empty it has not
returned - the code imposes no timeout. -/
theorem c9_theorem :
    (∀ polls : List (List ServedEvent),
      (∀ b ∈ polls, b = []) → listenServed polls = none) ∧
    (∀ (pre rest : List (List ServedEvent)) (e : ServedEvent)
      (es : List ServedEvent),
      (∀ b ∈ pre, b = []) → listenServed (pre ++ (e :: es) :: rest) = some e) :=
  ⟨listen_all_empty, listen_first_nonempty⟩

/-- Witness for `c9_theorem`: three empty polls yield no return; two empty
polls followed by a non-empty one yield its first entry. -/
theorem c9_witness :
    listenServed ([[], [], []] : List (List ServedEvent)) = none ∧
    listenServed ([[], [], [⟨7, [42]⟩]] : List (List ServedEvent)) =
      some ⟨7, [42]⟩ :=
  ⟨c9_theorem.1 [[], [], []] (by decide),
   c9_theorem.2 [[], []] [] ⟨7, [42]⟩ [] (by decide)⟩

/-! Claim C8. -/

/-- C8: the bot's `request` handler performs, in order: submit the request
transaction, wait for its receipt, read the counter and derive
`requestId = getTotal() - 1`, announce the created request, register a wait
filtered on the derived id, block, and report the decoded reply; with no
interleaved submission (the contract state is threaded sequentially through
this one handler), the derived id equals the id the contract assigned. -/
theorem c8_theorem (s : BridgeState) (account key blockId : Nat)
    (stream : List (List ServedEvent)) (ev : ServedEvent)
    (h : listenServed (stream.map
          (getNewEntries (getTotal (contractRequest s).2 - 1))) = some ev) :
    getTotal (contractRequest s).2 - 1 = (contractRequest s).1 ∧
    requestHandler s account key blockId stream =
      ([BotAction.submitRequestTx account key blockId,
        BotAction.waitReceipt,
        BotAction.readTotal (getTotal (contractRequest s).2),
        BotAction.replyCreated (contractRequest s).1 account key blockId,
        BotAction.createServedFilter (contractRequest s).1,
        BotAction.awaitServed (contractRequest s).1,
        BotAction.replyServed ev.requestId ev.reply],
       (contractRequest s).2, some (ev.requestId, ev.reply)) := by
  have hid : getTotal (contractRequest s).2 - 1 = (contractRequest s).1 := by
    simp [contractRequest, getTotal]
  refine ⟨hid, ?_⟩
  simp only [contractRequest, getTotal, Nat.add_sub_cancel] at h
  simp only [requestHandler, contractRequest, getTotal, Nat.add_sub_cancel, h]
  rfl

/-- Witness for `c8_theorem`: with five prior requests the new request gets
id 5, the derived id is 5, and the waiter returns the reply served for
id 5. -/
theorem c8_witness :
    getTotal (contractRequest ⟨5⟩).2 - 1 = (contractRequest ⟨5⟩).1 ∧
    requestHandler ⟨5⟩ 8 3 100 [[⟨5, [42]⟩]] =
      ([BotAction.submitRequestTx 8 3 100,
        BotAction.waitReceipt,
        BotAction.readTotal 6,
        BotAction.replyCreated 5 8 3 100,
        BotAction.createServedFilter 5,
        BotAction.awaitServed 5,
        BotAction.replyServed 5 [42]],
       ⟨6⟩, some (5, [42])) :=
  c8_theorem ⟨5⟩ 8 3 100 [[⟨5, [42]⟩]] ⟨5, [42]⟩ (by decide)

/-! Claim C10. -/

/-- C10: the `check` handler is total - for every request id and every
outcome of the `getRequest` call (success, unknown-id revert, transport
failure, and any decoding failure of the returned record) it sends exactly
one message: the request details on a fully successful decode, and the single
not-found message on any failure whatsoever; no exception escapes the bare
`except:`. -/
theorem c10_theorem (fromtimestamp : Nat → Option Nat) (rid : Nat)
    (outcome : CallOutcome) :
    (checkRun fromtimestamp rid outcome).length = 1 ∧
    ((∃ r date, outcome = CallOutcome.ok r ∧
        fromtimestamp r.submittedAt = some date ∧
        checkRun fromtimestamp rid outcome =
          [BotMessage.details rid r.account r.key r.blockId date
            r.served r.reply]) ∨
      checkRun fromtimestamp rid outcome = [BotMessage.notFound rid]) := by
  cases outcome with
  | ok r =>
    cases hf : fromtimestamp r.submittedAt with
    | none =>
      exact ⟨by simp [checkRun, checkTryBody, hf],
        Or.inr (by simp [checkRun, checkTryBody, hf])⟩
    | some d =>
      exact ⟨by simp [checkRun, checkTryBody, hf],
        Or.inl ⟨r, d, rfl, hf, by simp [checkRun, checkTryBody, hf]⟩⟩
  | revertNotFound => exact ⟨rfl, Or.inr rfl⟩
  | transportFailure => exact ⟨rfl, Or.inr rfl⟩
